import Mathlib

/-!
Verification of the authentication core of the text-to-speech repository
(`src/api/auth.js`): a single POST handler dispatching on an `action` field
to `register` and `login`, backed by an external key-value store, bcrypt
password hashing and JWT issuance.

The handler is embedded as a pure function.  Its sources of nondeterminism
(the fresh bcrypt salt, the fresh `crypto.randomUUID()` user id, and the
clock used by `jwt.sign`) are passed in as explicit parameters.  The store
is explicit state (an association list, newest binding first, matching the
overwriting SET of the remote store).  Side effects performed against the
store, the hasher and the token signer are recorded in an effect trace so
that "performs no store write / no hashing / no token issuance" claims are
statable.
-/

namespace TtsAuth

/-- A concrete deterministic mixing function used to give the modelled
bcrypt digest and JWT signature computable, collision-making content. -/
def strHash (s : String) : Nat :=
  s.data.foldl (fun a c => a * 131 + c.toNat + 1) 7

/-- Modelled from the spec: a bcrypt digest "embeds its own salt (no
separate salt storage required)".  `bcryptjs` is an external library; only
its contract (§4.2 of the spec) is modelled.  The digest carries the salt
together with a value derived from salt and plaintext. -/
structure Digest where
  salt : Nat
  body : Nat
deriving DecidableEq, Repr

/-- The salt-and-plaintext-dependent content of a digest. -/
def bcryptRaw (salt : Nat) (plaintext : String) : Nat :=
  strHash plaintext * (salt + 1) + salt

/-- Modelled from the spec: `bcrypt.hash(password, 10)` with an explicit
fresh salt (the per-call randomness made into a parameter). -/
def bcryptHash (salt : Nat) (plaintext : String) : Digest :=
  ⟨salt, bcryptRaw salt plaintext⟩

/-- Modelled from the spec: `bcrypt.compare` "recomputes using the salt
embedded in the digest" and compares. -/
def bcryptCompare (plaintext : String) (d : Digest) : Bool :=
  bcryptRaw d.salt plaintext == d.body

/-- Modelled from the spec: the token produced by `jwt.sign({userId,
username}, secret, {expiresIn: '1h'})` — a signed structure whose payload
holds `{userId, username, issuedAt, expiresAt}` (§4.3). -/
structure Token where
  userId : String
  username : String
  issuedAt : Nat
  expiresAt : Nat
  sig : Nat
deriving DecidableEq, Repr

/-- The signature content over secret and payload. -/
def signRaw (secret uid uname : String) (iat exp : Nat) : Nat :=
  strHash (secret ++ "#" ++ uid ++ "#" ++ uname) * 1000003 + iat * 1009 + exp

/-- Modelled from the spec: issuing a token at time `now` (seconds); the
`'1h'` expiry of the source fixes `expiresAt = issuedAt + 3600`. -/
def jwtSign (secret uid uname : String) (now : Nat) : Token :=
  ⟨uid, uname, now, now + 3600, signRaw secret uid uname now (now + 3600)⟩

/-- Modelled from the spec: verification "fails when the signature does
not match, the payload is malformed, or now > expiresAt; succeeds
otherwise" (§4.3). -/
def jwtVerify (secret : String) (t : Token) (now : Nat) : Option (String × String) :=
  if t.sig = signRaw secret t.userId t.username t.issuedAt t.expiresAt ∧ now ≤ t.expiresAt
  then some (t.userId, t.username)
  else none

/-- The Credential Record persisted under `users:<username>`:
`{ userId, hashedPassword }` as written by the register branch. -/
structure StoredUser where
  userId : String
  hashedPassword : Digest
deriving DecidableEq, Repr

/-- The external key-value store, newest binding first. -/
abbrev Store := List (String × StoredUser)

/-- The GET of the key-value client: first binding for the key, `none`
standing for the `{ result: null }` answer of the remote store. -/
def storeGet (store : Store) (key : String) : Option StoredUser :=
  match store with
  | [] => none
  | (k, v) :: rest => if k == key then some v else storeGet rest key

/-- Process-wide configuration read from the environment at the top of
`auth.js`: `KV_REST_API_URL`, `KV_REST_API_TOKEN`, `JWT_SECRET`; `none`
models an unset variable. -/
structure Config where
  kvUrl : Option String
  kvToken : Option String
  jwtSecret : Option String
deriving DecidableEq, Repr

/-- Both store credentials are set; with either unset the `fetch` of
`kvRequest` fails and the request throws (modelled from the spec's §6:
absent store credentials cannot yield a completed store operation). -/
def kvAvailable (cfg : Config) : Bool :=
  cfg.kvUrl.isSome && cfg.kvToken.isSome

/-- The request body fields destructured by the handler, each `none` when
absent, plus the HTTP method. -/
structure Request where
  method : String
  action : Option String
  username : Option String
  password : Option String
deriving DecidableEq, Repr

/-- JavaScript falsiness of an optional string field: absent (`undefined`)
or the empty string, the condition tested by `!username || !password`. -/
def falsy : Option String → Bool
  | none => true
  | some s => s == ""

/-- A JSON value appearing in a response body: a string, or the signed
token structure. -/
inductive JVal where
  | str : String → JVal
  | tok : Token → JVal
deriving DecidableEq, Repr

/-- A response body: the JSON object as a key-value list. -/
abbrev Body := List (String × JVal)

/-- An observable side effect of one request: a store GET, a store SET,
a `bcrypt.hash`, a `bcrypt.compare`, or a `jwt.sign`. -/
inductive Effect where
  | get : String → Effect
  | set : String → StoredUser → Effect
  | hashPw : Effect
  | comparePw : Effect
  | signTok : Effect
deriving DecidableEq, Repr

/-- The full outcome of one request: HTTP status, response body, the store
after the request, and the trace of effects performed. -/
structure Outcome where
  status : Nat
  body : Body
  store : Store
  trace : List Effect
deriving DecidableEq, Repr

def methodNotAllowedMsg : String := "Method Not Allowed"

def credsRequiredMsg : String := "Username and password are required."

def userExistsMsg : String := "User already exists."

def registeredMsg : String := "User registered successfully."

def invalidCredsMsg : String := "Invalid username or password."

def loginOkMsg : String := "Login successful."

def invalidActionMsg : String := "Invalid action specified. Use \"register\" or \"login\"."

def internalErrMsg : String := "Internal server error during authentication."

/-- Details string of the 500 response when a store round-trip fails
(`kvRequest` throws). -/
def kvFailedMsg : String := "KV operation failed"

/-- Details string of the 500 response when `jwt.sign` is called with an
unset secret (the library throws; modelled from the spec's fail-fast
requirement in §6). -/
def signFailedMsg : String := "secretOrPrivateKey must have a value"

/-- The 500 response produced by the catch block of the handler. -/
def err500 (store : Store) (trace : List Effect) (details : String) : Outcome :=
  ⟨500, [("error", .str internalErrMsg), ("details", .str details)], store, trace⟩

/-- The handler of `src/api/auth.js`, embedded with the fresh bcrypt salt,
the fresh user id and the current time as explicit parameters. -/
def handler (cfg : Config) (req : Request) (store : Store)
    (salt : Nat) (freshId : String) (now : Nat) : Outcome :=
  if req.method ≠ "POST" then
    ⟨405, [("error", .str methodNotAllowedMsg)], store, []⟩
  else if falsy req.username || falsy req.password then
    ⟨400, [("error", .str credsRequiredMsg)], store, []⟩
  else
    let username := req.username.getD ""
    let password := req.password.getD ""
    if req.action = some "register" then
      let userKey := "users:" ++ username
      if kvAvailable cfg then
        match storeGet store userKey with
        | some _ => ⟨409, [("error", .str userExistsMsg)], store, [.get userKey]⟩
        | none =>
          let record : StoredUser := ⟨freshId, bcryptHash salt password⟩
          ⟨201, [("message", .str registeredMsg), ("userId", .str freshId)],
            (userKey, record) :: store,
            [.get userKey, .hashPw, .set userKey record]⟩
      else err500 store [] kvFailedMsg
    else if req.action = some "login" then
      let userKey := "users:" ++ username
      if kvAvailable cfg then
        match storeGet store userKey with
        | none => ⟨401, [("error", .str invalidCredsMsg)], store, [.get userKey]⟩
        | some rec =>
          if bcryptCompare password rec.hashedPassword then
            match cfg.jwtSecret with
            | some secret =>
              let tok := jwtSign secret rec.userId username now
              ⟨200, [("message", .str loginOkMsg), ("token", .tok tok),
                     ("userId", .str rec.userId)],
                store, [.get userKey, .comparePw, .signTok]⟩
            | none => err500 store [.get userKey, .comparePw] signFailedMsg
          else ⟨401, [("error", .str invalidCredsMsg)], store, [.get userKey, .comparePw]⟩
      else err500 store [] kvFailedMsg
    else
      ⟨400, [("error", .str invalidActionMsg)], store, []⟩

/-- The literal strings of a response body (token structures excluded). -/
def bodyStrs (b : Body) : List String :=
  b.filterMap fun kv => match kv.2 with | .str s => some s | .tok _ => none

/-- Every fixed literal message the handler can place in a response. -/
def fixedMsgs : List String :=
  [methodNotAllowedMsg, credsRequiredMsg, userExistsMsg, registeredMsg,
   invalidCredsMsg, loginOkMsg, invalidActionMsg, internalErrMsg,
   kvFailedMsg, signFailedMsg]

/-- A successful store GET answers with a value bound in the store. -/
theorem storeGet_mem {store : Store} {key : String} {v : StoredUser}
    (h : storeGet store key = some v) : ∃ k, (k, v) ∈ store := by
  induction store with
  | nil => simp [storeGet] at h
  | cons head rest ih =>
    obtain ⟨k, v0⟩ := head
    simp only [storeGet] at h
    by_cases hk : (k == key) = true
    · rw [if_pos hk] at h
      exact ⟨k, by simp [Option.some.injEq] at h; simp [h]⟩
    · rw [if_neg hk] at h
      obtain ⟨k2, hmem⟩ := ih h
      exact ⟨k2, List.mem_cons_of_mem _ hmem⟩

/-- C1: a register request for a username whose key `users:<username>`
already holds a Credential Record returns 409 with body
`{error: "User already exists."}`, performs no store write (the trace is
just the GET) and leaves the store unchanged, for every supplied
password. -/
theorem register_conflict (cfg : Config) (u p : String) (store : Store)
    (salt : Nat) (freshId : String) (now : Nat) (rec : StoredUser)
    (hu : u ≠ "") (hp : p ≠ "")
    (hkv : kvAvailable cfg = true)
    (hex : storeGet store ("users:" ++ u) = some rec) :
    handler cfg ⟨"POST", some "register", some u, some p⟩ store salt freshId now =
      ⟨409, [("error", .str userExistsMsg)], store, [.get ("users:" ++ u)]⟩ := by
  simp [handler, falsy, hu, hp, hkv, hex]

/-- Witness for C1 at a concrete configuration, store and request. -/
theorem register_conflict_witness :
    ("alice" : String) ≠ "" ∧ ("other" : String) ≠ "" ∧
    kvAvailable ⟨some "url", some "tok", some "sec"⟩ = true ∧
    storeGet [("users:alice", ⟨"id0", bcryptHash 5 "orig"⟩)] ("users:" ++ "alice") =
      some ⟨"id0", bcryptHash 5 "orig"⟩ ∧
    handler ⟨some "url", some "tok", some "sec"⟩
        ⟨"POST", some "register", some "alice", some "other"⟩
        [("users:alice", ⟨"id0", bcryptHash 5 "orig"⟩)] 7 "id1" 0 =
      ⟨409, [("error", .str userExistsMsg)],
       [("users:alice", ⟨"id0", bcryptHash 5 "orig"⟩)], [.get ("users:" ++ "alice")]⟩ :=
  ⟨by decide, by decide, by decide, by decide,
   register_conflict ⟨some "url", some "tok", some "sec"⟩ "alice" "other"
     [("users:alice", ⟨"id0", bcryptHash 5 "orig"⟩)] 7 "id1" 0
     ⟨"id0", bcryptHash 5 "orig"⟩ (by decide) (by decide) (by decide) (by decide)⟩

/-- C3: a login for an unknown username and a login for a known username
with a password failing verification produce identical observable
responses: both status 401 with the uniform body
`{error: "Invalid username or password."}`. -/
theorem login_uniform_error (cfg : Config) (u1 p1 u2 p2 : String)
    (store1 store2 : Store) (salt1 salt2 : Nat) (fid1 fid2 : String)
    (now1 now2 : Nat) (rec : StoredUser)
    (hu1 : u1 ≠ "") (hp1 : p1 ≠ "") (hu2 : u2 ≠ "") (hp2 : p2 ≠ "")
    (hkv : kvAvailable cfg = true)
    (habs : storeGet store1 ("users:" ++ u1) = none)
    (hrec : storeGet store2 ("users:" ++ u2) = some rec)
    (hbad : bcryptCompare p2 rec.hashedPassword = false) :
    (handler cfg ⟨"POST", some "login", some u1, some p1⟩ store1 salt1 fid1 now1).status = 401 ∧
    (handler cfg ⟨"POST", some "login", some u2, some p2⟩ store2 salt2 fid2 now2).status = 401 ∧
    (handler cfg ⟨"POST", some "login", some u1, some p1⟩ store1 salt1 fid1 now1).body =
      (handler cfg ⟨"POST", some "login", some u2, some p2⟩ store2 salt2 fid2 now2).body ∧
    (handler cfg ⟨"POST", some "login", some u1, some p1⟩ store1 salt1 fid1 now1).body =
      [("error", .str invalidCredsMsg)] := by
  simp [handler, falsy, hu1, hp1, hu2, hp2, hkv, habs, hrec, hbad]

/-- Witness for C3: unknown user "bob" in an empty store versus known
user "alice" with a wrong password. -/
theorem login_uniform_error_witness :
    ("bob" : String) ≠ "" ∧ ("x" : String) ≠ "" ∧
    ("alice" : String) ≠ "" ∧ ("wrong" : String) ≠ "" ∧
    kvAvailable ⟨some "url", some "tok", some "sec"⟩ = true ∧
    storeGet ([] : Store) ("users:" ++ "bob") = none ∧
    storeGet [("users:alice", ⟨"id0", bcryptHash 5 "s3cret"⟩)] ("users:" ++ "alice") =
      some ⟨"id0", bcryptHash 5 "s3cret"⟩ ∧
    bcryptCompare "wrong" (StoredUser.mk "id0" (bcryptHash 5 "s3cret")).hashedPassword = false ∧
    ((handler ⟨some "url", some "tok", some "sec"⟩ ⟨"POST", some "login", some "bob", some "x"⟩
        [] 1 "f1" 10).status = 401 ∧
     (handler ⟨some "url", some "tok", some "sec"⟩ ⟨"POST", some "login", some "alice", some "wrong"⟩
        [("users:alice", ⟨"id0", bcryptHash 5 "s3cret"⟩)] 2 "f2" 20).status = 401 ∧
     (handler ⟨some "url", some "tok", some "sec"⟩ ⟨"POST", some "login", some "bob", some "x"⟩
        [] 1 "f1" 10).body =
       (handler ⟨some "url", some "tok", some "sec"⟩ ⟨"POST", some "login", some "alice", some "wrong"⟩
        [("users:alice", ⟨"id0", bcryptHash 5 "s3cret"⟩)] 2 "f2" 20).body ∧
     (handler ⟨some "url", some "tok", some "sec"⟩ ⟨"POST", some "login", some "bob", some "x"⟩
        [] 1 "f1" 10).body = [("error", .str invalidCredsMsg)]) :=
  ⟨by decide, by decide, by decide, by decide, by decide, by decide, by decide, by decide,
   login_uniform_error ⟨some "url", some "tok", some "sec"⟩ "bob" "x" "alice" "wrong"
     [] [("users:alice", ⟨"id0", bcryptHash 5 "s3cret"⟩)] 1 2 "f1" "f2" 10 20
     ⟨"id0", bcryptHash 5 "s3cret"⟩
     (by decide) (by decide) (by decide) (by decide) (by decide) (by decide) (by decide) (by decide)⟩

/-- C4: a POST request with an empty or absent username or password is
answered 400 with body `{error: "Username and password are required."}`,
for every action value, with an empty effect trace (no store read, no
store write, no hashing, no token issuance) and an unchanged store. -/
theorem missing_creds_rejected (cfg : Config) (req : Request) (store : Store)
    (salt : Nat) (freshId : String) (now : Nat)
    (hpost : req.method = "POST")
    (hfalsy : (falsy req.username || falsy req.password) = true) :
    handler cfg req store salt freshId now =
      ⟨400, [("error", .str credsRequiredMsg)], store, []⟩ := by
  simp [handler, hpost, hfalsy]

/-- Witness for C4: register action with an empty password. -/
theorem missing_creds_rejected_witness :
    (Request.mk "POST" (some "register") (some "alice") (some "")).method = "POST" ∧
    (falsy (Request.mk "POST" (some "register") (some "alice") (some "")).username ||
     falsy (Request.mk "POST" (some "register") (some "alice") (some "")).password) = true ∧
    handler ⟨some "url", some "tok", some "sec"⟩
        ⟨"POST", some "register", some "alice", some ""⟩ [] 3 "id9" 42 =
      ⟨400, [("error", .str credsRequiredMsg)], [], []⟩ :=
  ⟨by decide, by decide,
   missing_creds_rejected ⟨some "url", some "tok", some "sec"⟩
     ⟨"POST", some "register", some "alice", some ""⟩ [] 3 "id9" 42 (by decide) (by decide)⟩

/-- C5: a POST request with non-empty username and password whose action
is neither "register" nor "login" (absent included) is answered 400 with
the invalid-action body, whose message begins "Invalid action specified",
with an empty effect trace and an unchanged store. -/
theorem invalid_action_rejected (cfg : Config) (action : Option String)
    (u p : String) (store : Store) (salt : Nat) (freshId : String) (now : Nat)
    (hu : u ≠ "") (hp : p ≠ "")
    (hreg : action ≠ some "register") (hlog : action ≠ some "login") :
    handler cfg ⟨"POST", action, some u, some p⟩ store salt freshId now =
      ⟨400, [("error", .str invalidActionMsg)], store, []⟩ ∧
    invalidActionMsg = "Invalid action specified" ++ ". Use \"register\" or \"login\"." := by
  refine ⟨?_, rfl⟩
  simp [handler, falsy, hu, hp, hreg, hlog]

/-- Witness for C5 at the absent action. -/
theorem invalid_action_rejected_witness :
    ("alice" : String) ≠ "" ∧ ("pw" : String) ≠ "" ∧
    (none : Option String) ≠ some "register" ∧ (none : Option String) ≠ some "login" ∧
    (handler ⟨some "url", some "tok", some "sec"⟩ ⟨"POST", none, some "alice", some "pw"⟩
        [] 3 "id9" 42 =
      ⟨400, [("error", .str invalidActionMsg)], [], []⟩ ∧
     invalidActionMsg = "Invalid action specified" ++ ". Use \"register\" or \"login\".") :=
  ⟨by decide, by decide, by decide, by decide,
   invalid_action_rejected ⟨some "url", some "tok", some "sec"⟩ none "alice" "pw"
     [] 3 "id9" 42 (by decide) (by decide) (by decide) (by decide)⟩

/-- C10: the missing-credentials check precedes the action check: with an
empty or absent username or password the handler answers 400 with the
credentials-required body whatever the action is, and in particular never
produces the invalid-action body for such a request. -/
theorem missing_creds_precede_action (cfg : Config) (action : Option String)
    (username password : Option String) (store : Store)
    (salt : Nat) (freshId : String) (now : Nat)
    (hfalsy : (falsy username || falsy password) = true) :
    (handler cfg ⟨"POST", action, username, password⟩ store salt freshId now).status = 400 ∧
    (handler cfg ⟨"POST", action, username, password⟩ store salt freshId now).body =
      [("error", .str credsRequiredMsg)] ∧
    (handler cfg ⟨"POST", action, username, password⟩ store salt freshId now).body ≠
      [("error", .str invalidActionMsg)] := by
  refine ⟨?_, ?_, ?_⟩ <;> simp [handler, hfalsy, credsRequiredMsg, invalidActionMsg]

/-- Witness for C10: absent username together with an invalid action. -/
theorem missing_creds_precede_action_witness :
    (falsy (none : Option String) || falsy (some "pw")) = true ∧
    ((handler ⟨some "url", some "tok", some "sec"⟩ ⟨"POST", some "delete", none, some "pw"⟩
        [] 3 "id9" 42).status = 400 ∧
     (handler ⟨some "url", some "tok", some "sec"⟩ ⟨"POST", some "delete", none, some "pw"⟩
        [] 3 "id9" 42).body = [("error", .str credsRequiredMsg)] ∧
     (handler ⟨some "url", some "tok", some "sec"⟩ ⟨"POST", some "delete", none, some "pw"⟩
        [] 3 "id9" 42).body ≠ [("error", .str invalidActionMsg)]) :=
  ⟨by decide,
   missing_creds_precede_action ⟨some "url", some "tok", some "sec"⟩ (some "delete")
     none (some "pw") [] 3 "id9" 42 (by decide)⟩

/-- C2: a register that succeeds (201 with a fresh userId, writing the
hashed record under `users:<username>`) is followed, on the resulting
store, by a successful login with the same credentials: 200 with a token
and the very userId register returned (read-after-write on the key plus
verify accepting the stored hash). -/
theorem register_then_login (cfg : Config) (u p secret : String) (store : Store)
    (salt : Nat) (freshId : String) (now : Nat)
    (salt2 : Nat) (freshId2 : String) (now2 : Nat)
    (hu : u ≠ "") (hp : p ≠ "")
    (hkv : kvAvailable cfg = true) (hsec : cfg.jwtSecret = some secret)
    (habs : storeGet store ("users:" ++ u) = none) :
    handler cfg ⟨"POST", some "register", some u, some p⟩ store salt freshId now =
      ⟨201, [("message", .str registeredMsg), ("userId", .str freshId)],
       ("users:" ++ u, ⟨freshId, bcryptHash salt p⟩) :: store,
       [.get ("users:" ++ u), .hashPw, .set ("users:" ++ u) ⟨freshId, bcryptHash salt p⟩]⟩ ∧
    handler cfg ⟨"POST", some "login", some u, some p⟩
        (("users:" ++ u, ⟨freshId, bcryptHash salt p⟩) :: store) salt2 freshId2 now2 =
      ⟨200, [("message", .str loginOkMsg), ("token", .tok (jwtSign secret freshId u now2)),
             ("userId", .str freshId)],
       ("users:" ++ u, ⟨freshId, bcryptHash salt p⟩) :: store,
       [.get ("users:" ++ u), .comparePw, .signTok]⟩ := by
  constructor
  · simp [handler, falsy, hu, hp, hkv, habs]
  · simp [handler, falsy, hu, hp, hkv, hsec, storeGet, bcryptCompare, bcryptHash]

/-- Witness for C2: register then login of ("alice", "s3cret") on an
empty store. -/
theorem register_then_login_witness :
    ("alice" : String) ≠ "" ∧ ("s3cret" : String) ≠ "" ∧
    kvAvailable ⟨some "url", some "tok", some "sec"⟩ = true ∧
    (Config.mk (some "url") (some "tok") (some "sec")).jwtSecret = some "sec" ∧
    storeGet ([] : Store) ("users:" ++ "alice") = none ∧
    (handler ⟨some "url", some "tok", some "sec"⟩
        ⟨"POST", some "register", some "alice", some "s3cret"⟩ [] 5 "id0" 100 =
      ⟨201, [("message", .str registeredMsg), ("userId", .str "id0")],
       [("users:" ++ "alice", ⟨"id0", bcryptHash 5 "s3cret"⟩)],
       [.get ("users:" ++ "alice"), .hashPw,
        .set ("users:" ++ "alice") ⟨"id0", bcryptHash 5 "s3cret"⟩]⟩ ∧
     handler ⟨some "url", some "tok", some "sec"⟩
        ⟨"POST", some "login", some "alice", some "s3cret"⟩
        [("users:" ++ "alice", ⟨"id0", bcryptHash 5 "s3cret"⟩)] 6 "id1" 200 =
      ⟨200, [("message", .str loginOkMsg), ("token", .tok (jwtSign "sec" "id0" "alice" 200)),
             ("userId", .str "id0")],
       [("users:" ++ "alice", ⟨"id0", bcryptHash 5 "s3cret"⟩)],
       [.get ("users:" ++ "alice"), .comparePw, .signTok]⟩) :=
  ⟨by decide, by decide, by decide, by decide, by decide,
   register_then_login ⟨some "url", some "tok", some "sec"⟩ "alice" "s3cret" "sec"
     [] 5 "id0" 100 6 "id1" 200 (by decide) (by decide) (by decide) (by decide) (by decide)⟩

/-- C6: the token of a successful login carries exactly the record's
userId and the request's username, is issued at `now` with
`expiresAt = now + 3600` (one hour), and verification at any time after
`expiresAt` fails. -/
theorem login_token_expiry (cfg : Config) (u p secret : String) (store : Store)
    (salt : Nat) (freshId : String) (now : Nat) (rec : StoredUser)
    (hu : u ≠ "") (hp : p ≠ "")
    (hkv : kvAvailable cfg = true) (hsec : cfg.jwtSecret = some secret)
    (hrec : storeGet store ("users:" ++ u) = some rec)
    (hok : bcryptCompare p rec.hashedPassword = true) :
    (handler cfg ⟨"POST", some "login", some u, some p⟩ store salt freshId now).status = 200 ∧
    (handler cfg ⟨"POST", some "login", some u, some p⟩ store salt freshId now).body =
      [("message", .str loginOkMsg), ("token", .tok (jwtSign secret rec.userId u now)),
       ("userId", .str rec.userId)] ∧
    (jwtSign secret rec.userId u now).userId = rec.userId ∧
    (jwtSign secret rec.userId u now).username = u ∧
    (jwtSign secret rec.userId u now).issuedAt = now ∧
    (jwtSign secret rec.userId u now).expiresAt = now + 3600 ∧
    ∀ t, (jwtSign secret rec.userId u now).expiresAt < t →
      jwtVerify secret (jwtSign secret rec.userId u now) t = none := by
  refine ⟨?_, ?_, rfl, rfl, rfl, rfl, ?_⟩
  · simp [handler, falsy, hu, hp, hkv, hsec, hrec, hok]
  · simp [handler, falsy, hu, hp, hkv, hsec, hrec, hok]
  · intro t ht
    simp only [jwtVerify, jwtSign]
    rw [if_neg]
    rintro ⟨-, hle⟩
    simp only [jwtSign] at ht
    omega

/-- Witness for C6 at a concrete registered record and a verification
one second past expiry (checked through the theorem's last conjunct). -/
theorem login_token_expiry_witness :
    ("alice" : String) ≠ "" ∧ ("s3cret" : String) ≠ "" ∧
    kvAvailable ⟨some "url", some "tok", some "sec"⟩ = true ∧
    (Config.mk (some "url") (some "tok") (some "sec")).jwtSecret = some "sec" ∧
    storeGet [("users:alice", ⟨"id0", bcryptHash 5 "s3cret"⟩)] ("users:" ++ "alice") =
      some ⟨"id0", bcryptHash 5 "s3cret"⟩ ∧
    bcryptCompare "s3cret" (StoredUser.mk "id0" (bcryptHash 5 "s3cret")).hashedPassword = true ∧
    ((handler ⟨some "url", some "tok", some "sec"⟩
        ⟨"POST", some "login", some "alice", some "s3cret"⟩
        [("users:alice", ⟨"id0", bcryptHash 5 "s3cret"⟩)] 9 "f0" 1000).status = 200 ∧
     (handler ⟨some "url", some "tok", some "sec"⟩
        ⟨"POST", some "login", some "alice", some "s3cret"⟩
        [("users:alice", ⟨"id0", bcryptHash 5 "s3cret"⟩)] 9 "f0" 1000).body =
       [("message", .str loginOkMsg), ("token", .tok (jwtSign "sec" "id0" "alice" 1000)),
        ("userId", .str "id0")] ∧
     (jwtSign "sec" "id0" "alice" 1000).userId = "id0" ∧
     (jwtSign "sec" "id0" "alice" 1000).username = "alice" ∧
     (jwtSign "sec" "id0" "alice" 1000).issuedAt = 1000 ∧
     (jwtSign "sec" "id0" "alice" 1000).expiresAt = 1000 + 3600 ∧
     jwtVerify "sec" (jwtSign "sec" "id0" "alice" 1000) 4601 = none) := by
  have h := login_token_expiry ⟨some "url", some "tok", some "sec"⟩ "alice" "s3cret" "sec"
    [("users:alice", ⟨"id0", bcryptHash 5 "s3cret"⟩)] 9 "f0" 1000
    ⟨"id0", bcryptHash 5 "s3cret"⟩
    (by decide) (by decide) (by decide) (by decide) (by decide) (by decide)
  exact ⟨by decide, by decide, by decide, by decide, by decide, by decide,
    h.1, h.2.1, h.2.2.1, h.2.2.2.1, h.2.2.2.2.1, h.2.2.2.2.2.1,
    h.2.2.2.2.2.2 4601 (by decide)⟩

/-- C8: verification accepts the hash of the same plaintext,
`bcryptCompare p (bcryptHash s p) = true`, while two calls of the hash
with distinct fresh salts on the same plaintext produce distinct
digests. -/
theorem hash_verify_roundtrip (p : String) (s1 s2 : Nat) (hne : s1 ≠ s2) :
    bcryptCompare p (bcryptHash s1 p) = true ∧
    bcryptHash s1 p ≠ bcryptHash s2 p := by
  constructor
  · simp [bcryptCompare, bcryptHash]
  · intro h
    exact hne (congrArg Digest.salt h)

/-- Witness for C8 at plaintext "s3cret" and salts 3 and 4. -/
theorem hash_verify_roundtrip_witness :
    (3 : Nat) ≠ 4 ∧
    (bcryptCompare "s3cret" (bcryptHash 3 "s3cret") = true ∧
     bcryptHash 3 "s3cret" ≠ bcryptHash 4 "s3cret") :=
  ⟨by decide, hash_verify_roundtrip "s3cret" 3 4 (by decide)⟩

/-- C7: with the signing secret unset no request ever performs a
`jwt.sign` or places a token in a response (in particular no login
returns 200), and with either store credential unset no request ever
performs a store write, the store is unchanged and neither a 201
registration nor a 200 login completes: the operation is refused instead
of proceeding. -/
theorem missing_config_fails (cfg : Config) (req : Request) (store : Store)
    (salt : Nat) (freshId : String) (now : Nat) :
    (cfg.jwtSecret = none →
      Effect.signTok ∉ (handler cfg req store salt freshId now).trace ∧
      (∀ t, ("token", JVal.tok t) ∉ (handler cfg req store salt freshId now).body) ∧
      (handler cfg req store salt freshId now).status ≠ 200) ∧
    (kvAvailable cfg = false →
      (∀ k v, Effect.set k v ∉ (handler cfg req store salt freshId now).trace) ∧
      (handler cfg req store salt freshId now).store = store ∧
      (handler cfg req store salt freshId now).status ≠ 201 ∧
      (handler cfg req store salt freshId now).status ≠ 200) := by
  refine ⟨fun hnone => ?_, fun hkv => ?_⟩ <;>
    · simp only [handler]
      repeat' split
      all_goals simp_all [err500]

/-- Witness for C7: a fully unset configuration, one login request and
one register request, with the quantified conclusions instantiated at a
concrete token and a concrete store binding. -/
theorem missing_config_fails_witness :
    (Config.mk none none none).jwtSecret = none ∧
    kvAvailable ⟨none, none, none⟩ = false ∧
    Effect.signTok ∉
      (handler ⟨none, none, none⟩ ⟨"POST", some "login", some "alice", some "pw"⟩
        [] 0 "f" 0).trace ∧
    ("token", JVal.tok (jwtSign "s" "i" "u" 0)) ∉
      (handler ⟨none, none, none⟩ ⟨"POST", some "login", some "alice", some "pw"⟩
        [] 0 "f" 0).body ∧
    (handler ⟨none, none, none⟩ ⟨"POST", some "login", some "alice", some "pw"⟩
        [] 0 "f" 0).status ≠ 200 ∧
    Effect.set "users:alice" ⟨"x", bcryptHash 0 "y"⟩ ∉
      (handler ⟨none, none, none⟩ ⟨"POST", some "register", some "alice", some "pw"⟩
        [] 0 "f" 0).trace ∧
    (handler ⟨none, none, none⟩ ⟨"POST", some "register", some "alice", some "pw"⟩
        [] 0 "f" 0).store = [] ∧
    (handler ⟨none, none, none⟩ ⟨"POST", some "register", some "alice", some "pw"⟩
        [] 0 "f" 0).status ≠ 201 := by
  have hlog := missing_config_fails ⟨none, none, none⟩
    ⟨"POST", some "login", some "alice", some "pw"⟩ [] 0 "f" 0
  have hreg := missing_config_fails ⟨none, none, none⟩
    ⟨"POST", some "register", some "alice", some "pw"⟩ [] 0 "f" 0
  exact ⟨rfl, by decide,
    (hlog.1 rfl).1, (hlog.1 rfl).2.1 (jwtSign "s" "i" "u" 0), (hlog.1 rfl).2.2,
    (hreg.2 (by decide)).1 "users:alice" ⟨"x", bcryptHash 0 "y"⟩,
    (hreg.2 (by decide)).2.1, (hreg.2 (by decide)).2.2.1⟩

/-- C9: for every request carrying a password `p` that is not one of the
handler's fixed literal messages, not the fresh user id and not a stored
user id, the plaintext `p` appears in no string of the response body, and
every value the request writes to the store is exactly the record
`{userId := freshId, hashedPassword := bcryptHash salt p}` under key
`users:<username>`. -/
theorem password_never_leaked (cfg : Config) (req : Request) (store : Store)
    (salt : Nat) (freshId : String) (now : Nat) (p : String)
    (hp : req.password = some p)
    (hmsg : p ∉ fixedMsgs) (hfid : p ≠ freshId)
    (hids : ∀ kv ∈ store, p ≠ kv.2.userId) :
    (∀ k v, Effect.set k v ∈ (handler cfg req store salt freshId now).trace →
       k = "users:" ++ req.username.getD "" ∧ v = ⟨freshId, bcryptHash salt p⟩) ∧
    p ∉ bodyStrs (handler cfg req store salt freshId now).body := by
  simp only [fixedMsgs, List.mem_cons, List.not_mem_nil, or_false, not_or] at hmsg
  obtain ⟨h1, h2, h3, h4, h5, h6, h7, h8, h9, h10⟩ := hmsg
  simp only [handler, hp, Option.getD_some]
  repeat' split
  all_goals simp_all [bodyStrs, err500]
  all_goals
    (rename storeGet _ _ = some _ => hget
     obtain ⟨k0, hk0⟩ := storeGet_mem hget
     exact hids _ _ hk0)

/-- Witness for C9: a register request for "alice" with password "pw" on
a store already holding "bob", with the write conclusion instantiated at
the one write the request performs. -/
theorem password_never_leaked_witness :
    (Request.mk "POST" (some "register") (some "alice") (some "pw")).password = some "pw" ∧
    ("pw" : String) ∉ fixedMsgs ∧
    ("pw" : String) ≠ "idf" ∧
    (∀ kv ∈ ([("users:bob", ⟨"idb", bcryptHash 2 "zz"⟩)] : Store), ("pw" : String) ≠ kv.2.userId) ∧
    ("users:alice" : String) =
        "users:" ++ (Request.mk "POST" (some "register") (some "alice") (some "pw")).username.getD "" ∧
    (Effect.set "users:alice" ⟨"idf", bcryptHash 4 "pw"⟩ ∈
        (handler ⟨some "url", some "tok", some "sec"⟩
          ⟨"POST", some "register", some "alice", some "pw"⟩
          [("users:bob", ⟨"idb", bcryptHash 2 "zz"⟩)] 4 "idf" 0).trace →
      "users:alice" =
          "users:" ++ (Request.mk "POST" (some "register") (some "alice") (some "pw")).username.getD "" ∧
      (StoredUser.mk "idf" (bcryptHash 4 "pw")) = ⟨"idf", bcryptHash 4 "pw"⟩) ∧
    ("pw" : String) ∉ bodyStrs
      (handler ⟨some "url", some "tok", some "sec"⟩
        ⟨"POST", some "register", some "alice", some "pw"⟩
        [("users:bob", ⟨"idb", bcryptHash 2 "zz"⟩)] 4 "idf" 0).body := by
  have h := password_never_leaked ⟨some "url", some "tok", some "sec"⟩
    ⟨"POST", some "register", some "alice", some "pw"⟩
    [("users:bob", ⟨"idb", bcryptHash 2 "zz"⟩)] 4 "idf" 0 "pw"
    rfl (by decide) (by decide) (by decide)
  exact ⟨rfl, by decide, by decide, by decide, by decide,
    h.1 "users:alice" ⟨"idf", bcryptHash 4 "pw"⟩, h.2⟩

end TtsAuth
